import Mathlib

/-!
Verification of the TelegramBingo session engine.

Shallow embedding of the TelegramBingo server (routes/storage) and the
shared bingo game logic, together with proofs of the specified
properties.  Money amounts (stored as decimal strings in the source and
manipulated with `parseFloat`) are modelled as exact rationals; the
random sources (`Math.random`) are modelled as explicit oracle
parameters (an index stream for card generation, an index for the
number-calling draw).
-/

namespace TelegramBingo

/-! Bingo game logic (client/src/lib/gameLogic.ts). -/

/-- Predicate `isMarked` from `checkWinCondition`: a cell counts as marked when it
is the free sentinel `0` or belongs to the submitted marked set. -/
def isMarked (markedNumbers : List Nat) (n : Nat) : Bool :=
  n == 0 || markedNumbers.contains n

/-- Evaluator `checkWinCondition(card, markedNumbers)`: true when some row, some
column, or one of the two diagonals is fully marked. -/
def checkWinCondition (card : List (List Nat)) (markedNumbers : List Nat) : Bool :=
  ((List.range 5).any fun row => (card.getD row []).all fun n => isMarked markedNumbers n)
  || ((List.range 5).any fun col => card.all fun row => isMarked markedNumbers (row.getD col 0))
  || ((List.range 5).all fun i => isMarked markedNumbers ((card.getD i []).getD i 0))
  || ((List.range 5).all fun i => isMarked markedNumbers ((card.getD i []).getD (4 - i) 0))

/-- The per-column ranges of `generateBingoCard`
(B 1-15, I 16-30, N 31-45, G 46-60, O 61-75). -/
def bingoRanges : List (Nat × Nat) :=
  [(1, 15), (16, 30), (31, 45), (46, 60), (61, 75)]

/-- One `do { number = floor(random()*(max-min+1))+min } while (used.has(number))`
loop of `generateBingoCard`.  `stream k` is the `k`-th raw draw of the
random source; `fuel` bounds the resampling (the source loops until a
fresh value appears). -/
def pickNumber (lo hi : Nat) (used : List Nat) (stream : Nat → Nat) :
    Nat → Nat → Option (Nat × Nat)
  | _, 0 => none
  | k, fuel + 1 =>
    let n := lo + stream k % (hi - lo + 1)
    if n ∈ used then pickNumber lo hi used stream (k + 1) fuel
    else some (n, k + 1)

/-- The inner row loop of `generateBingoCard` building one column:
cell `(2,2)` is the free space `0`, every other cell is a fresh draw
from the column range. -/
def genColumn (col lo hi : Nat) (stream : Nat → Nat) (fuel : Nat) :
    List Nat → Nat → List Nat → Option (List Nat × Nat)
  | [], k, _ => some ([], k)
  | row :: rest, k, used =>
    if col = 2 ∧ row = 2 then
      match genColumn col lo hi stream fuel rest k used with
      | none => none
      | some (tail, k2) => some (0 :: tail, k2)
    else
      match pickNumber lo hi used stream k fuel with
      | none => none
      | some (n, k2) =>
        match genColumn col lo hi stream fuel rest k2 (n :: used) with
        | none => none
        | some (tail, k3) => some (n :: tail, k3)

/-- The outer column loop of `generateBingoCard`: each column starts
with an empty `usedNumbers` set. -/
def genColumns (stream : Nat → Nat) (fuel : Nat) :
    List (Nat × Nat × Nat) → Nat → Option (List (List Nat) × Nat)
  | [], k => some ([], k)
  | (col, lo, hi) :: rest, k =>
    match genColumn col lo hi stream fuel (List.range 5) k [] with
    | none => none
    | some (column, k2) =>
      match genColumns stream fuel rest k2 with
      | none => none
      | some (cols, k3) => some (column :: cols, k3)

/-- The transposition step `card[row][col] = column[row]` of
`generateBingoCard`. -/
def transposeCard (cols : List (List Nat)) : List (List Nat) :=
  (List.range 5).map fun row => (List.range 5).map fun col => (cols.getD col []).getD row 0

/-- The column loop's iteration plan: column index (the loop counter)
paired with `ranges[col]`. -/
def columnPlan : List (Nat × Nat × Nat) :=
  ((List.range 5).zip bingoRanges).map fun p => (p.1, p.2.1, p.2.2)

/-- Generator `generateBingoCard()`, parameterised by the random stream and the
resampling fuel; `none` only when the fuel is exhausted by colliding
draws. -/
def generateBingoCard (stream : Nat → Nat) (fuel : Nat) : Option (List (List Nat)) :=
  match genColumns stream fuel columnPlan 0 with
  | none => none
  | some (cols, _) => some (transposeCard cols)

/-! Data model (shared/schema.ts).

Money columns (`decimal` strings manipulated through `parseFloat` /
`toString` in the source) are modelled as exact rationals. -/

/-- Lifecycle column `games.status`: 'waiting' | 'active' | 'completed'. -/
inductive GameStatus
  | waiting
  | active
  | completed
deriving DecidableEq

/-- The fields of a `users` row used by the engine. -/
structure User where
  id : Nat
  balance : Rat
deriving DecidableEq

/-- The fields of a `games` row used by the engine. -/
structure Game where
  id : Nat
  status : GameStatus
  entryFee : Rat
  prizePool : Rat
  maxPlayers : Nat
  calledNumbers : List String
  currentNumber : Option String
  winnerId : Option Nat
deriving DecidableEq

/-- A `game_participants` row. -/
structure Participant where
  id : Nat
  gameId : Nat
  userId : Nat
  bingoCard : List (List Nat)
  markedNumbers : List Nat
deriving DecidableEq

/-- Column `transactions.type` values used by the engine. -/
inductive TxnType
  | deposit
  | gameEntry
  | gameWin
deriving DecidableEq

/-- Column `transactions.status`: 'pending' | 'completed' | 'failed'. -/
inductive TxnStatus
  | pending
  | completed
  | failed
deriving DecidableEq

/-- A `transactions` row. -/
structure Txn where
  userId : Nat
  type : TxnType
  amount : Rat
  status : TxnStatus
  gameId : Option Nat
deriving DecidableEq

/-- An outbound broadcast event (`broadcastToRoom` payloads). -/
inductive Event
  | playerJoined (gameId playerCount : Nat)
  | gameStarted (gameId : Nat)
  | numberCalled (gameId : Nat) (number : String) (calledNumbers : List String)
  | gameWon (gameId : Nat) (winnerId : Nat) (prizeAmount : Rat)
deriving DecidableEq

/-- The durable rows plus the in-memory room map (`gameRooms`, kept as
the set of game ids that currently have a room) and the log of events
broadcast so far. -/
structure ServerState where
  users : List User
  games : List Game
  participants : List Participant
  transactions : List Txn
  rooms : List Nat
  events : List Event
deriving DecidableEq

/-! Storage operations (server/storage.ts). -/

/-- Model of `storage.getUser`. -/
def getUser (s : ServerState) (uid : Nat) : Option User :=
  s.users.find? fun u => u.id == uid

/-- Model of `storage.getGame`. -/
def getGame (s : ServerState) (gid : Nat) : Option Game :=
  s.games.find? fun g => g.id == gid

/-- Model of `storage.getGameParticipants`. -/
def getGameParticipants (s : ServerState) (gid : Nat) : List Participant :=
  s.participants.filter fun p => p.gameId == gid

/-- Row update `UPDATE games ... WHERE id = gid`. -/
def updateGame (s : ServerState) (gid : Nat) (f : Game → Game) : ServerState :=
  { s with games := s.games.map fun g => if g.id == gid then f g else g }

/-- Model of `storage.updateUserBalance`. -/
def updateUserBalance (s : ServerState) (uid : Nat) (amount : Rat) : ServerState :=
  { s with users := s.users.map fun u => if u.id == uid then { u with balance := amount } else u }

/-- Model of `storage.createTransaction`. -/
def createTransaction (s : ServerState) (t : Txn) : ServerState :=
  { s with transactions := s.transactions ++ [t] }

/-- Model of `storage.joinGame` (participant row insertion). -/
def addParticipant (s : ServerState) (p : Participant) : ServerState :=
  { s with participants := s.participants ++ [p] }

/-- Model of `storage.updateGameStatus`. -/
def updateGameStatus (s : ServerState) (gid : Nat) (st : GameStatus) : ServerState :=
  updateGame s gid fun g => { g with status := st }

/-- Model of `storage.updateGamePrizePool`. -/
def updateGamePrizePool (s : ServerState) (gid : Nat) (pool : Rat) : ServerState :=
  updateGame s gid fun g => { g with prizePool := pool }

/-- Model of `storage.updateGameCurrentNumber`. -/
def updateGameCurrentNumber (s : ServerState) (gid : Nat) (number : String)
    (calledNumbers : List String) : ServerState :=
  updateGame s gid fun g => { g with currentNumber := some number, calledNumbers := calledNumbers }

/-- Model of `storage.setGameWinner`: sets the winner and moves the game to
'completed' unconditionally. -/
def setGameWinner (s : ServerState) (gid wid : Nat) : ServerState :=
  updateGame s gid fun g => { g with winnerId := some wid, status := GameStatus.completed }

/-- Model of `storage.updateParticipantMarkedNumbers`. -/
def updateParticipantMarkedNumbers (s : ServerState) (pid : Nat)
    (markedNumbers : List Nat) : ServerState :=
  { s with participants :=
      s.participants.map fun p =>
        if p.id == pid then { p with markedNumbers := markedNumbers } else p }

/-! Join handler (`POST /api/games/:id/join`, server/routes.ts).

The success tail (everything after the validation checks) is split off
as `joinApply`; `joinApplyLegacy` is the tail of the earlier Stripe-era
variant of the handler, which computes the new prize pool but never
persists it. -/

deriving instance DecidableEq for Except

/-- Typed versions of the join failure responses. -/
inductive JoinError
  | notFound
  | invalidState
  | full
  | alreadyJoined
  | insufficientFunds
deriving DecidableEq

/-- The participant row the join handler inserts. -/
def mkParticipant (pid gid uid : Nat) (card : List (List Nat)) : Participant :=
  { id := pid, gameId := gid, userId := uid, bingoCard := card, markedNumbers := [] }

/-- The balance debit, entry transaction and participant insertion
shared by both join handlers. -/
def joinDebit (s : ServerState) (gid uid : Nat) (card : List (List Nat)) (pid : Nat)
    (game : Game) (user : User) : ServerState :=
  addParticipant
    (createTransaction (updateUserBalance s uid (user.balance - game.entryFee))
      { userId := uid, type := TxnType.gameEntry, amount := -game.entryFee,
        status := TxnStatus.completed, gameId := some gid })
    (mkParticipant pid gid uid card)

/-- The debit stage followed by the prize-pool write of the current
handler. -/
def joinCore (s : ServerState) (gid uid : Nat) (card : List (List Nat)) (pid : Nat)
    (game : Game) (user : User) : ServerState :=
  updateGamePrizePool (joinDebit s gid uid card pid game user) gid
    (game.prizePool + game.entryFee)

/-- The start-threshold tail shared by both handlers: if the updated
participant list has reached 2 players, activate the game and broadcast
`game_started` to the room if one exists. -/
def joinStart (s4 : ServerState) (gid : Nat) : ServerState :=
  if 2 ≤ (getGameParticipants s4 gid).length then
    if gid ∈ (updateGameStatus s4 gid GameStatus.active).rooms then
      { updateGameStatus s4 gid GameStatus.active with
        events := (updateGameStatus s4 gid GameStatus.active).events ++ [Event.gameStarted gid] }
    else updateGameStatus s4 gid GameStatus.active
  else s4

/-- Success tail of the current join handler: debit the stake, record
the completed entry transaction, insert the participant (with the card
produced by the generator, passed in as `card`), persist the increased
prize pool, and run the start-threshold check. -/
def joinApply (s : ServerState) (gid uid : Nat) (card : List (List Nat)) (pid : Nat)
    (game : Game) (user : User) : ServerState :=
  joinStart (joinCore s gid uid card pid game user) gid

/-- Success tail of the legacy (Stripe-era) join handler: identical
except that the recomputed prize pool is never written back. -/
def joinApplyLegacy (s : ServerState) (gid uid : Nat) (card : List (List Nat)) (pid : Nat)
    (game : Game) (user : User) : ServerState :=
  joinStart (joinDebit s gid uid card pid game user) gid

/-- The validation sequence shared by both join handlers, dispatching to
the given success tail.  A missing user row falls into the
"Insufficient balance" response, exactly as in the source. -/
def joinWith (apply : ServerState → Nat → Nat → List (List Nat) → Nat → Game → User → ServerState)
    (s : ServerState) (gid uid : Nat) (card : List (List Nat)) (pid : Nat) :
    Except JoinError Participant × ServerState :=
  match getGame s gid with
  | none => (Except.error JoinError.notFound, s)
  | some game =>
    if game.status ≠ GameStatus.waiting then (Except.error JoinError.invalidState, s)
    else if game.maxPlayers ≤ (getGameParticipants s gid).length then
      (Except.error JoinError.full, s)
    else if ((getGameParticipants s gid).find? fun p => p.userId == uid).isSome then
      (Except.error JoinError.alreadyJoined, s)
    else
      match getUser s uid with
      | none => (Except.error JoinError.insufficientFunds, s)
      | some user =>
        if user.balance < game.entryFee then (Except.error JoinError.insufficientFunds, s)
        else (Except.ok (mkParticipant pid gid uid card), apply s gid uid card pid game user)

/-- The current join handler (offline-payment era routes.ts). -/
def joinGame (s : ServerState) (gid uid : Nat) (card : List (List Nat)) (pid : Nat) :
    Except JoinError Participant × ServerState :=
  joinWith joinApply s gid uid card pid

/-- The legacy join handler (Stripe-era routes.ts variant). -/
def joinGameLegacy (s : ServerState) (gid uid : Nat) (card : List (List Nat)) (pid : Nat) :
    Except JoinError Participant × ServerState :=
  joinWith joinApplyLegacy s gid uid card pid

/-! Handler of the mark_number WebSocket message (server/routes.ts).

Identical in both routes.ts variants.  Note that the handler never
inspects the game status: whenever the submitted mark set wins on the
participant's card, the whole settlement tail runs again. -/

/-- The prize-credit stage of the `mark_number` handler: if the winner's
user row exists, write the increased balance and record a completed
`game_win` transaction; a missing user row skips the payout. -/
def winSettleState (s2 : ServerState) (gid uid : Nat) (game : Game) : ServerState :=
  match getUser s2 uid with
  | none => s2
  | some user =>
    createTransaction (updateUserBalance s2 uid (user.balance + game.prizePool))
      { userId := uid, type := TxnType.gameWin, amount := game.prizePool,
        status := TxnStatus.completed, gameId := some gid }

/-- The terminal broadcast stage of the `mark_number` handler:
`game_won` goes to the room if one exists. -/
def broadcastWin (s3 : ServerState) (gid uid : Nat) (game : Game) : ServerState :=
  if gid ∈ s3.rooms then
    { s3 with events := s3.events ++ [Event.gameWon gid uid game.prizePool] }
  else s3

/-- The `mark_number` message handler: persist the submitted marks, look
the participant up, and if `checkWinCondition` accepts the submitted
set, set the winner, credit the prize pool to the winner's balance,
record a completed `game_win` transaction, and broadcast `game_won` to
the room if one exists. -/
def markNumber (s : ServerState) (gid pid : Nat) (markedNumbers : List Nat) : ServerState :=
  let s1 := updateParticipantMarkedNumbers s pid markedNumbers
  match (getGameParticipants s1 gid).find? fun p => p.id == pid with
  | none => s1
  | some player =>
    if checkWinCondition player.bingoCard markedNumbers then
      let s2 := setGameWinner s1 gid player.userId
      match getGame s2 gid with
      | none => s2
      | some game => broadcastWin (winSettleState s2 gid player.userId game) gid player.userId game
    else s1

/-! Number-calling scheduler (the 5-second `setInterval` loop).

One tick for one game that currently has a room; `rand` models the
`Math.floor(Math.random() * availableNumbers.length)` index draw. -/

/-- The letter of the B/I/N/G/O labelling scheme for a number 1..75. -/
def bingoLetter (i : Nat) : String :=
  if i ≤ 15 then "B" else if i ≤ 30 then "I" else if i ≤ 45 then "N"
  else if i ≤ 60 then "G" else "O"

/-- The wire label of a called number, e.g. `B7`, `O75`. -/
def bingoLabel (i : Nat) : String :=
  bingoLetter i ++ toString i

/-- All 75 labels in the order the tick loop enumerates them. -/
def allBingoLabels : List String :=
  (List.range 75).map fun j => bingoLabel (j + 1)

/-- The `availableNumbers` array of a tick: the labels 1..75 not yet in
the called sequence. -/
def availableNumbers (called : List String) : List String :=
  allBingoLabels.filter fun l => ! called.contains l

/-- One scheduler tick for the game `gid` (which has a live room): for
an active game with uncalled numbers left, draw one, append it to the
called sequence, persist, and broadcast `number_called`; otherwise do
nothing. -/
def callNumberTick (s : ServerState) (gid : Nat) (rand : Nat) : ServerState :=
  if gid ∈ s.rooms then
    match getGame s gid with
    | none => s
    | some game =>
      if game.status = GameStatus.active then
        let avail := availableNumbers game.calledNumbers
        if 0 < avail.length then
          let next := avail.getD (rand % avail.length) ""
          let newCalled := game.calledNumbers ++ [next]
          let s1 := updateGameCurrentNumber s gid next newCalled
          { s1 with events := s1.events ++ [Event.numberCalled gid next newCalled] }
        else s
      else s
  else s

/-! Win evaluator: spec-side vocabulary and the equivalence proof. -/

/-- Spec 4.2 vocabulary: a line is fully marked when every one of its
cells is the free sentinel or a member of the marked set. -/
def LineFullyMarked (markedNumbers cells : List Nat) : Prop :=
  ∀ n ∈ cells, n = 0 ∨ n ∈ markedNumbers

/-- Row `r` of a card. -/
def cardRow (card : List (List Nat)) (r : Nat) : List Nat :=
  card.getD r []

/-- Column `c` of a card. -/
def cardColumn (card : List (List Nat)) (c : Nat) : List Nat :=
  card.map fun row => row.getD c 0

/-- The top-left-to-bottom-right diagonal of a card. -/
def mainDiagonal (card : List (List Nat)) : List Nat :=
  (List.range 5).map fun i => (card.getD i []).getD i 0

/-- The top-right-to-bottom-left diagonal of a card. -/
def antiDiagonal (card : List (List Nat)) : List Nat :=
  (List.range 5).map fun i => (card.getD i []).getD (4 - i) 0

/-- Spec 4.2: some of the 12 lines (5 rows, 5 columns, 2 diagonals) is
fully marked. -/
def WinByLine (card : List (List Nat)) (markedNumbers : List Nat) : Prop :=
  (∃ r < 5, LineFullyMarked markedNumbers (cardRow card r)) ∨
  (∃ c < 5, LineFullyMarked markedNumbers (cardColumn card c)) ∨
  LineFullyMarked markedNumbers (mainDiagonal card) ∨
  LineFullyMarked markedNumbers (antiDiagonal card)

/-- A concrete card whose first row is the `[3,18,33,48,63]` row of the
spec's example. -/
def sampleCard : List (List Nat) :=
  [[3, 18, 33, 48, 63],
   [1, 16, 31, 46, 61],
   [2, 17, 0, 47, 62],
   [4, 19, 34, 49, 64],
   [5, 20, 35, 50, 65]]

/-- The card the generator produces from the identity random stream with
fuel 20 (each random draw at index `k` returns `k`). -/
def sampleGenCard : List (List Nat) :=
  [[1, 21, 41, 60, 65],
   [2, 22, 42, 46, 66],
   [3, 23, 0, 47, 67],
   [4, 24, 43, 48, 68],
   [5, 25, 44, 49, 69]]

/-! Auxiliary definitions: called-number erasure (for the
noninterference statement), join-reachability (for the capacity
analysis), and concrete states driving the evaluation theorems. -/

/-- Erase the called-number data of one game row. -/
def eraseGameCalled (g : Game) : Game :=
  { g with calledNumbers := [], currentNumber := none }

/-- Erase the called-number data of every game row.  An operation whose
result has the same erasure for inputs with the same erasure cannot let
the called-number sequence influence any other part of the state. -/
def eraseCalled (s : ServerState) : ServerState :=
  { s with games := s.games.map eraseGameCalled }

/-- Overwrite one game's called-number sequence. -/
def setGameCalledNumbers (s : ServerState) (gid : Nat) (called : List String) : ServerState :=
  updateGame s gid fun g => { g with calledNumbers := called }

/-- A state in which game `gid` is freshly created: status 'waiting' (as
sent by the lobby's create-game request) and no participant rows yet. -/
def freshGameState (gid : Nat) (s : ServerState) : Prop :=
  (getGame s gid).all (fun g => g.status == GameStatus.waiting) = true ∧
  getGameParticipants s gid = []

/-- States reachable from a fresh game through the join operation
(joins to arbitrary games, by arbitrary users, with arbitrary cards). -/
inductive JoinReach (gid : Nat) : ServerState → Prop
  | init (s : ServerState) : freshGameState gid s → JoinReach gid s
  | step (s : ServerState) (gid2 uid pid : Nat) (card : List (List Nat)) :
      JoinReach gid s → JoinReach gid ((joinGame s gid2 uid card pid).2)

/-- The empty database. -/
def emptyState : ServerState :=
  { users := [], games := [], participants := [], transactions := [],
    rooms := [], events := [] }

/-- A freshly created game with capacity 3, stake 1 and no players. -/
def freshState : ServerState :=
  { users := [],
    games := [{ id := 1, status := GameStatus.waiting, entryFee := 1, prizePool := 0,
                maxPlayers := 3, calledNumbers := [], currentNumber := none,
                winnerId := none }],
    participants := [], transactions := [], rooms := [], events := [] }

/-- A waiting game (stake 3, pool 0) and a user with balance 10 about
to make the first join. -/
def joinState : ServerState :=
  { users := [{ id := 2, balance := 10 }],
    games := [{ id := 1, status := GameStatus.waiting, entryFee := 3, prizePool := 0,
                maxPlayers := 8, calledNumbers := [], currentNumber := none,
                winnerId := none }],
    participants := [], transactions := [], rooms := [], events := [] }

/-- A waiting game with one participant and an open room; user 2 joins
next, which reaches the 2-player start threshold. -/
def joinStartState : ServerState :=
  { users := [{ id := 2, balance := 10 }],
    games := [{ id := 1, status := GameStatus.waiting, entryFee := 3, prizePool := 3,
                maxPlayers := 8, calledNumbers := [], currentNumber := none,
                winnerId := none }],
    participants := [{ id := 1, gameId := 1, userId := 1, bingoCard := sampleCard,
                       markedNumbers := [] }],
    transactions := [], rooms := [1], events := [] }

/-- An active two-player game (pool 6) with a room; participant 2
(user 2, balance 7) holds `sampleCard` and is about to submit the
winning first row. -/
def winState : ServerState :=
  { users := [{ id := 1, balance := 7 }, { id := 2, balance := 7 }],
    games := [{ id := 1, status := GameStatus.active, entryFee := 3, prizePool := 6,
                maxPlayers := 8, calledNumbers := [], currentNumber := none,
                winnerId := none }],
    participants := [{ id := 1, gameId := 1, userId := 1, bingoCard := sampleCard,
                       markedNumbers := [] },
                     { id := 2, gameId := 1, userId := 2, bingoCard := sampleCard,
                       markedNumbers := [] }],
    transactions := [], rooms := [1], events := [] }

/-- An already settled game: status 'completed', winner user 1, the
prize pool of 6 already paid out once (one completed `game_win`
transaction and one `game_won` broadcast).  Participant 2 still holds a
winning card. -/
def settledState : ServerState :=
  { users := [{ id := 1, balance := 13 }, { id := 2, balance := 7 }],
    games := [{ id := 1, status := GameStatus.completed, entryFee := 3, prizePool := 6,
                maxPlayers := 8, calledNumbers := [], currentNumber := none,
                winnerId := some 1 }],
    participants := [{ id := 1, gameId := 1, userId := 1, bingoCard := sampleCard,
                       markedNumbers := [] },
                     { id := 2, gameId := 1, userId := 2, bingoCard := sampleCard,
                       markedNumbers := [] }],
    transactions := [{ userId := 1, type := TxnType.gameWin, amount := 6,
                       status := TxnStatus.completed, gameId := some 1 }],
    rooms := [1],
    events := [Event.gameWon 1 1 6] }

/-- An active game with a room and an empty called sequence, ready for a
scheduler tick. -/
def tickState : ServerState :=
  { users := [],
    games := [{ id := 1, status := GameStatus.active, entryFee := 1, prizePool := 2,
                maxPlayers := 8, calledNumbers := [], currentNumber := none,
                winnerId := none }],
    participants := [], transactions := [], rooms := [1], events := [] }

lemma isMarked_eq_true (markedNumbers : List Nat) (n : Nat) :
    isMarked markedNumbers n = true ↔ n = 0 ∨ n ∈ markedNumbers := by
  simp [isMarked, List.contains, List.elem_iff]

lemma checkWinCondition_iff (card : List (List Nat)) (markedNumbers : List Nat) :
    checkWinCondition card markedNumbers = true ↔ WinByLine card markedNumbers := by
  simp only [checkWinCondition, WinByLine, LineFullyMarked, cardRow, cardColumn,
    mainDiagonal, antiDiagonal, Bool.or_eq_true, List.any_eq_true, List.all_eq_true,
    List.mem_range, List.mem_map, isMarked_eq_true]
  constructor
  · rintro (((⟨r, hr, hrow⟩ | ⟨c, hc, hcol⟩) | hd1) | hd2)
    · exact Or.inl ⟨r, hr, hrow⟩
    · refine Or.inr (Or.inl ⟨c, hc, ?_⟩)
      rintro n ⟨row, hrow, rfl⟩
      exact hcol row hrow
    · refine Or.inr (Or.inr (Or.inl ?_))
      rintro n ⟨i, hi, rfl⟩
      exact hd1 i hi
    · refine Or.inr (Or.inr (Or.inr ?_))
      rintro n ⟨i, hi, rfl⟩
      exact hd2 i hi
  · rintro (⟨r, hr, hrow⟩ | ⟨c, hc, hcol⟩ | hd1 | hd2)
    · exact Or.inl (Or.inl (Or.inl ⟨r, hr, hrow⟩))
    · exact Or.inl (Or.inl (Or.inr ⟨c, hc, fun row hrow => hcol _ ⟨row, hrow, rfl⟩⟩))
    · exact Or.inl (Or.inr fun i hi => hd1 _ ⟨i, hi, rfl⟩)
    · exact Or.inr fun i hi => hd2 _ ⟨i, hi, rfl⟩

/-- C8.  The win evaluator accepts exactly when one of the 12 lines
(5 rows, 5 columns, 2 diagonals) of the card is fully marked, with the
free sentinel `0` always treated as marked; on a card whose first row is
`[3,18,33,48,63]`, the marked set `{3,18,33,48,63}` wins and the marked
set `{3,18,33,48}` does not. -/
theorem c8_win_evaluator_iff :
    (∀ card markedNumbers,
      checkWinCondition card markedNumbers = true ↔ WinByLine card markedNumbers) ∧
    checkWinCondition sampleCard [3, 18, 33, 48, 63] = true ∧
    checkWinCondition sampleCard [3, 18, 33, 48] = false :=
  ⟨checkWinCondition_iff, by decide, by decide⟩

/-! Card generator: range, distinctness and free-cell facts. -/

lemma pickNumber_spec {lo hi : Nat} {used : List Nat} {stream : Nat → Nat} :
    ∀ {k fuel n k2}, lo ≤ hi → pickNumber lo hi used stream k fuel = some (n, k2) →
      lo ≤ n ∧ n ≤ hi ∧ n ∉ used := by
  intro k fuel
  induction fuel generalizing k with
  | zero => intro n k2 _ h; simp [pickNumber] at h
  | succ m ih =>
    intro n k2 hle h
    simp only [pickNumber] at h
    split at h
    · exact ih hle h
    · rename_i hmem
      simp only [Option.some.injEq, Prod.mk.injEq] at h
      obtain ⟨rfl, rfl⟩ := h
      have hm : stream k % (hi - lo + 1) < hi - lo + 1 := Nat.mod_lt _ (by omega)
      exact ⟨by omega, by omega, hmem⟩

lemma genColumn_ne2_spec {col lo hi : Nat} {stream : Nat → Nat} {fuel k k' : Nat}
    {out : List Nat} (hcol : col ≠ 2) (hle : lo ≤ hi)
    (h : genColumn col lo hi stream fuel [0, 1, 2, 3, 4] k [] = some (out, k')) :
    out.length = 5 ∧ (∀ n ∈ out, lo ≤ n ∧ n ≤ hi) ∧ out.Nodup := by
  simp only [genColumn, hcol, false_and, and_false, if_false] at h
  cases h0 : pickNumber lo hi [] stream k fuel with
  | none => simp [h0] at h
  | some v0 =>
  obtain ⟨n0, j0⟩ := v0
  simp only [h0] at h
  cases h1 : pickNumber lo hi [n0] stream j0 fuel with
  | none => simp [h1] at h
  | some v1 =>
  obtain ⟨n1, j1⟩ := v1
  simp only [h1] at h
  cases h2 : pickNumber lo hi [n1, n0] stream j1 fuel with
  | none => simp [h2] at h
  | some v2 =>
  obtain ⟨n2, j2⟩ := v2
  simp only [h2] at h
  cases h3 : pickNumber lo hi [n2, n1, n0] stream j2 fuel with
  | none => simp [h3] at h
  | some v3 =>
  obtain ⟨n3, j3⟩ := v3
  simp only [h3] at h
  cases h4 : pickNumber lo hi [n3, n2, n1, n0] stream j3 fuel with
  | none => simp [h4] at h
  | some v4 =>
  obtain ⟨n4, j4⟩ := v4
  simp only [h4, Option.some.injEq, Prod.mk.injEq] at h
  obtain ⟨rfl, rfl⟩ := h
  obtain ⟨ha0, hb0, _⟩ := pickNumber_spec hle h0
  obtain ⟨ha1, hb1, hc1⟩ := pickNumber_spec hle h1
  obtain ⟨ha2, hb2, hc2⟩ := pickNumber_spec hle h2
  obtain ⟨ha3, hb3, hc3⟩ := pickNumber_spec hle h3
  obtain ⟨ha4, hb4, hc4⟩ := pickNumber_spec hle h4
  simp only [List.mem_cons, List.mem_singleton, List.not_mem_nil, not_or, or_false]
    at hc1 hc2 hc3 hc4
  refine ⟨rfl, ?_, ?_⟩
  · intro n hn
    simp only [List.mem_cons, List.not_mem_nil, or_false] at hn
    rcases hn with rfl | rfl | rfl | rfl | rfl
    exacts [⟨ha0, hb0⟩, ⟨ha1, hb1⟩, ⟨ha2, hb2⟩, ⟨ha3, hb3⟩, ⟨ha4, hb4⟩]
  · simp only [List.nodup_cons, List.mem_cons, List.mem_singleton, List.not_mem_nil,
      not_or, List.nodup_nil, and_true, not_false_eq_true]
    omega

lemma genColumn_two_spec {lo hi : Nat} {stream : Nat → Nat} {fuel k k' : Nat}
    {out : List Nat} (hlo : 1 ≤ lo) (hle : lo ≤ hi)
    (h : genColumn 2 lo hi stream fuel [0, 1, 2, 3, 4] k [] = some (out, k')) :
    ∃ n0 n1 n3 n4, out = [n0, n1, 0, n3, n4] ∧
      (∀ n ∈ [n0, n1, n3, n4], lo ≤ n ∧ n ≤ hi) ∧ out.Nodup := by
  simp only [genColumn, show ((0:Nat) = 2) = False by simp,
    show ((1:Nat) = 2) = False by simp, show ((3:Nat) = 2) = False by simp,
    show ((4:Nat) = 2) = False by simp, true_and, and_true, and_false, and_self,
    if_true, if_false] at h
  cases h0 : pickNumber lo hi [] stream k fuel with
  | none => simp [h0] at h
  | some v0 =>
  obtain ⟨n0, j0⟩ := v0
  simp only [h0] at h
  cases h1 : pickNumber lo hi [n0] stream j0 fuel with
  | none => simp [h1] at h
  | some v1 =>
  obtain ⟨n1, j1⟩ := v1
  simp only [h1] at h
  cases h3 : pickNumber lo hi [n1, n0] stream j1 fuel with
  | none => simp [h3] at h
  | some v3 =>
  obtain ⟨n3, j3⟩ := v3
  simp only [h3] at h
  cases h4 : pickNumber lo hi [n3, n1, n0] stream j3 fuel with
  | none => simp [h4] at h
  | some v4 =>
  obtain ⟨n4, j4⟩ := v4
  simp only [h4, Option.some.injEq, Prod.mk.injEq] at h
  obtain ⟨rfl, rfl⟩ := h
  obtain ⟨ha0, hb0, _⟩ := pickNumber_spec hle h0
  obtain ⟨ha1, hb1, hc1⟩ := pickNumber_spec hle h1
  obtain ⟨ha3, hb3, hc3⟩ := pickNumber_spec hle h3
  obtain ⟨ha4, hb4, hc4⟩ := pickNumber_spec hle h4
  simp only [List.mem_cons, List.mem_singleton, List.not_mem_nil, not_or, or_false]
    at hc1 hc3 hc4
  refine ⟨n0, n1, n3, n4, rfl, ?_, ?_⟩
  · intro n hn
    simp only [List.mem_cons, List.not_mem_nil, or_false] at hn
    rcases hn with rfl | rfl | rfl | rfl
    exacts [⟨ha0, hb0⟩, ⟨ha1, hb1⟩, ⟨ha3, hb3⟩, ⟨ha4, hb4⟩]
  · simp only [List.nodup_cons, List.mem_cons, List.mem_singleton, List.not_mem_nil,
      not_or, List.nodup_nil, and_true, not_false_eq_true]
    omega

lemma list_eq_of_length_five {α : Type} : ∀ {l : List α}, l.length = 5 →
    ∃ a b c d e, l = [a, b, c, d, e] := by
  intro l h
  rcases l with _ | ⟨a, _ | ⟨b, _ | ⟨c, _ | ⟨d, _ | ⟨e, _ | ⟨f, t⟩⟩⟩⟩⟩⟩ <;> simp_all

lemma generateBingoCard_shape {stream : Nat → Nat} {fuel : Nat} {card : List (List Nat)}
    (h : generateBingoCard stream fuel = some card) :
    ∃ a0 a1 a2 a3 a4 b0 b1 b2 b3 b4 c0 c1 c3 c4 d0 d1 d2 d3 d4 e0 e1 e2 e3 e4 : Nat,
      card = [[a0, b0, c0, d0, e0], [a1, b1, c1, d1, e1], [a2, b2, 0, d2, e2],
              [a3, b3, c3, d3, e3], [a4, b4, c4, d4, e4]] ∧
      (∀ n ∈ [a0, a1, a2, a3, a4], 1 ≤ n ∧ n ≤ 15) ∧
      (∀ n ∈ [b0, b1, b2, b3, b4], 16 ≤ n ∧ n ≤ 30) ∧
      (∀ n ∈ [c0, c1, c3, c4], 31 ≤ n ∧ n ≤ 45) ∧
      (∀ n ∈ [d0, d1, d2, d3, d4], 46 ≤ n ∧ n ≤ 60) ∧
      (∀ n ∈ [e0, e1, e2, e3, e4], 61 ≤ n ∧ n ≤ 75) ∧
      [a0, a1, a2, a3, a4].Nodup ∧ [b0, b1, b2, b3, b4].Nodup ∧
      [c0, c1, 0, c3, c4].Nodup ∧ [d0, d1, d2, d3, d4].Nodup ∧
      [e0, e1, e2, e3, e4].Nodup ∧
      cardRow card 0 = [a0, b0, c0, d0, e0] ∧ cardRow card 1 = [a1, b1, c1, d1, e1] ∧
      cardRow card 2 = [a2, b2, 0, d2, e2] ∧ cardRow card 3 = [a3, b3, c3, d3, e3] ∧
      cardRow card 4 = [a4, b4, c4, d4, e4] ∧
      cardColumn card 0 = [a0, a1, a2, a3, a4] ∧ cardColumn card 1 = [b0, b1, b2, b3, b4] ∧
      cardColumn card 2 = [c0, c1, 0, c3, c4] ∧ cardColumn card 3 = [d0, d1, d2, d3, d4] ∧
      cardColumn card 4 = [e0, e1, e2, e3, e4] ∧
      mainDiagonal card = [a0, b1, 0, d3, e4] ∧ antiDiagonal card = [e0, d1, 0, b3, a4] := by
  have hplan : columnPlan = [(0, 1, 15), (1, 16, 30), (2, 31, 45), (3, 46, 60), (4, 61, 75)] := by
    decide
  simp only [generateBingoCard, hplan, genColumns,
    show List.range 5 = [0, 1, 2, 3, 4] from rfl] at h
  cases hA : genColumn 0 1 15 stream fuel [0, 1, 2, 3, 4] 0 [] with
  | none => simp [hA] at h
  | some vA =>
  obtain ⟨A, kA⟩ := vA
  simp only [hA] at h
  cases hB : genColumn 1 16 30 stream fuel [0, 1, 2, 3, 4] kA [] with
  | none => simp [hB] at h
  | some vB =>
  obtain ⟨B, kB⟩ := vB
  simp only [hB] at h
  cases hC : genColumn 2 31 45 stream fuel [0, 1, 2, 3, 4] kB [] with
  | none => simp [hC] at h
  | some vC =>
  obtain ⟨C, kC⟩ := vC
  simp only [hC] at h
  cases hD : genColumn 3 46 60 stream fuel [0, 1, 2, 3, 4] kC [] with
  | none => simp [hD] at h
  | some vD =>
  obtain ⟨D, kD⟩ := vD
  simp only [hD] at h
  cases hE : genColumn 4 61 75 stream fuel [0, 1, 2, 3, 4] kD [] with
  | none => simp [hE] at h
  | some vE =>
  obtain ⟨E, kE⟩ := vE
  simp only [hE, Option.some.injEq] at h
  obtain ⟨hAlen, hAmem, hAnd⟩ := genColumn_ne2_spec (by omega) (by omega) hA
  obtain ⟨hBlen, hBmem, hBnd⟩ := genColumn_ne2_spec (by omega) (by omega) hB
  obtain ⟨cc0, cc1, cc3, cc4, hCeq, hCmem, hCnd⟩ := genColumn_two_spec (by omega) (by omega) hC
  obtain ⟨hDlen, hDmem, hDnd⟩ := genColumn_ne2_spec (by omega) (by omega) hD
  obtain ⟨hElen, hEmem, hEnd⟩ := genColumn_ne2_spec (by omega) (by omega) hE
  obtain ⟨a0, a1, a2, a3, a4, rfl⟩ := list_eq_of_length_five hAlen
  obtain ⟨b0, b1, b2, b3, b4, rfl⟩ := list_eq_of_length_five hBlen
  obtain ⟨d0, d1, d2, d3, d4, rfl⟩ := list_eq_of_length_five hDlen
  obtain ⟨e0, e1, e2, e3, e4, rfl⟩ := list_eq_of_length_five hElen
  subst hCeq
  subst h
  exact ⟨a0, a1, a2, a3, a4, b0, b1, b2, b3, b4, cc0, cc1, cc3, cc4,
    d0, d1, d2, d3, d4, e0, e1, e2, e3, e4, rfl, hAmem, hBmem, hCmem, hDmem, hEmem,
    hAnd, hBnd, hCnd, hDnd, hEnd, rfl, rfl, rfl, rfl, rfl, rfl, rfl, rfl, rfl, rfl,
    rfl, rfl⟩

/-- C7.  Every generated card is a 5-by-5 grid; each column holds 5
pairwise-distinct entries, each of which is either the free sentinel at
the centre of column 2 or lies in the column's 15-number range
`[15c+1, 15c+15]`; and the centre cell `(2,2)` is the free sentinel `0`. -/
theorem c7_generate_card_spec (stream : Nat → Nat) (fuel : Nat) (card : List (List Nat))
    (h : generateBingoCard stream fuel = some card) :
    card.length = 5 ∧ (∀ row ∈ card, row.length = 5) ∧
    (∀ c, c < 5 → (cardColumn card c).length = 5 ∧ (cardColumn card c).Nodup ∧
      ∀ n ∈ cardColumn card c, (c = 2 ∧ n = 0) ∨ (15 * c + 1 ≤ n ∧ n ≤ 15 * c + 15)) ∧
    (cardRow card 2).getD 2 0 = 0 := by
  obtain ⟨a0, a1, a2, a3, a4, b0, b1, b2, b3, b4, c0, c1, c3, c4,
    d0, d1, d2, d3, d4, e0, e1, e2, e3, e4, rfl, hA, hB, hC, hD, hE,
    hAnd, hBnd, hCnd, hDnd, hEnd, _, _, hR2, _, _,
    hc0, hc1, hc2, hc3, hc4, _, _⟩ := generateBingoCard_shape h
  refine ⟨rfl, ?_, ?_, by rw [hR2]; rfl⟩
  · intro row hrow
    simp only [List.mem_cons, List.not_mem_nil, or_false] at hrow
    rcases hrow with rfl | rfl | rfl | rfl | rfl <;> rfl
  · intro c hc
    interval_cases c
    · rw [hc0]
      refine ⟨rfl, hAnd, ?_⟩
      intro n hn
      exact Or.inr (by have := hA n hn; omega)
    · rw [hc1]
      refine ⟨rfl, hBnd, ?_⟩
      intro n hn
      exact Or.inr (by have := hB n hn; omega)
    · rw [hc2]
      refine ⟨rfl, hCnd, ?_⟩
      intro n hn
      simp only [List.mem_cons, List.not_mem_nil, or_false] at hn
      rcases hn with rfl | rfl | rfl | rfl | rfl
      · exact Or.inr (by have := hC n (by simp); omega)
      · exact Or.inr (by have := hC n (by simp); omega)
      · exact Or.inl ⟨rfl, rfl⟩
      · exact Or.inr (by have := hC n (by simp); omega)
      · exact Or.inr (by have := hC n (by simp); omega)
    · rw [hc3]
      refine ⟨rfl, hDnd, ?_⟩
      intro n hn
      exact Or.inr (by have := hD n hn; omega)
    · rw [hc4]
      refine ⟨rfl, hEnd, ?_⟩
      intro n hn
      exact Or.inr (by have := hE n hn; omega)

/-- C10.  On any generated card, the evaluator rejects the empty marked
set: every one of the 12 lines contains a nonzero cell besides the
single free centre cell. -/
theorem c10_empty_marks_no_win (stream : Nat → Nat) (fuel : Nat) (card : List (List Nat))
    (h : generateBingoCard stream fuel = some card) :
    checkWinCondition card [] = false := by
  obtain ⟨a0, a1, a2, a3, a4, b0, b1, b2, b3, b4, c0, c1, c3, c4,
    d0, d1, d2, d3, d4, e0, e1, e2, e3, e4, rfl, hA, hB, hC, hD, hE,
    _, _, _, _, _, hr0, hr1, hr2, hr3, hr4, hk0, hk1, hk2, hk3, hk4,
    hd1, hd2⟩ := generateBingoCard_shape h
  have ha0 := hA a0 (by simp)
  have ha1 := hA a1 (by simp)
  have ha2 := hA a2 (by simp)
  have ha3 := hA a3 (by simp)
  have ha4 := hA a4 (by simp)
  have hb0 := hB b0 (by simp)
  have hcc0 := hC c0 (by simp)
  have hdd0 := hD d0 (by simp)
  have hee0 := hE e0 (by simp)
  rw [Bool.eq_false_iff]
  intro htrue
  have hw := (checkWinCondition_iff _ []).mp htrue
  have step : ∀ n, (n = 0 ∨ n ∈ ([] : List Nat)) → n = 0 := by simp
  rcases hw with ⟨r, hr, hL⟩ | ⟨c, hc, hL⟩ | hL | hL
  · interval_cases r
    · rw [hr0] at hL
      have := step _ (hL a0 (by simp))
      omega
    · rw [hr1] at hL
      have := step _ (hL a1 (by simp))
      omega
    · rw [hr2] at hL
      have := step _ (hL a2 (by simp))
      omega
    · rw [hr3] at hL
      have := step _ (hL a3 (by simp))
      omega
    · rw [hr4] at hL
      have := step _ (hL a4 (by simp))
      omega
  · interval_cases c
    · rw [hk0] at hL
      have := step _ (hL a0 (by simp))
      omega
    · rw [hk1] at hL
      have := step _ (hL b0 (by simp))
      omega
    · rw [hk2] at hL
      have := step _ (hL c0 (by simp))
      omega
    · rw [hk3] at hL
      have := step _ (hL d0 (by simp))
      omega
    · rw [hk4] at hL
      have := step _ (hL e0 (by simp))
      omega
  · rw [hd1] at hL
    have := step _ (hL a0 (by simp))
    omega
  · rw [hd2] at hL
    have := step _ (hL e0 (by simp))
    omega


/-! Facts about keyed row updates and the join validation sequence. -/

lemma find?_map_comm {α : Type} (h : α → α) (p : α → Bool) (hp : ∀ a, p (h a) = p a)
    (l : List α) : (l.map h).find? p = (l.find? p).map h := by
  induction l with
  | nil => rfl
  | cons a t ih =>
    by_cases hpa : p a = true
    · rw [List.map_cons, List.find?_cons_of_pos _ (by rw [hp]; exact hpa),
        List.find?_cons_of_pos _ hpa]
      rfl
    · rw [List.map_cons, List.find?_cons_of_neg _ (by rw [hp]; exact hpa),
        List.find?_cons_of_neg _ hpa, ih]

lemma getGame_updateGame (s : ServerState) (gid t : Nat) (f : Game → Game)
    (hf : ∀ g, (f g).id = g.id) :
    getGame (updateGame s gid f) t =
      (getGame s t).map fun g => if g.id == gid then f g else g := by
  unfold getGame updateGame
  exact find?_map_comm _ _ (fun g => by by_cases hg : (g.id == gid) = true <;> simp [hg, hf g])
    s.games

lemma getGame_set_events (s : ServerState) (ev : List Event) (t : Nat) :
    getGame { s with events := ev } t = getGame s t := rfl

lemma joinWith_notFound {s : ServerState} {gid uid pid : Nat} {card : List (List Nat)}
    (apply : ServerState → Nat → Nat → List (List Nat) → Nat → Game → User → ServerState)
    (hg : getGame s gid = none) :
    joinWith apply s gid uid card pid = (Except.error JoinError.notFound, s) := by
  simp [joinWith, hg]

lemma joinWith_invalidState {s : ServerState} {gid uid pid : Nat} {card : List (List Nat)}
    {game : Game} (apply : ServerState → Nat → Nat → List (List Nat) → Nat → Game → User → ServerState)
    (hg : getGame s gid = some game) (h1 : game.status ≠ GameStatus.waiting) :
    joinWith apply s gid uid card pid = (Except.error JoinError.invalidState, s) := by
  simp [joinWith, hg, h1]

lemma joinWith_full {s : ServerState} {gid uid pid : Nat} {card : List (List Nat)}
    {game : Game} (apply : ServerState → Nat → Nat → List (List Nat) → Nat → Game → User → ServerState)
    (hg : getGame s gid = some game) (h1 : game.status = GameStatus.waiting)
    (h2 : game.maxPlayers ≤ (getGameParticipants s gid).length) :
    joinWith apply s gid uid card pid = (Except.error JoinError.full, s) := by
  simp [joinWith, hg, h1, h2]

lemma joinWith_alreadyJoined {s : ServerState} {gid uid pid : Nat} {card : List (List Nat)}
    {game : Game} (apply : ServerState → Nat → Nat → List (List Nat) → Nat → Game → User → ServerState)
    (hg : getGame s gid = some game) (h1 : game.status = GameStatus.waiting)
    (h2 : (getGameParticipants s gid).length < game.maxPlayers)
    (h3 : ((getGameParticipants s gid).find? fun q => q.userId == uid).isSome = true) :
    joinWith apply s gid uid card pid = (Except.error JoinError.alreadyJoined, s) := by
  simp [joinWith, hg, h1, Nat.not_le.mpr h2, h3]

lemma joinWith_noUser {s : ServerState} {gid uid pid : Nat} {card : List (List Nat)}
    {game : Game} (apply : ServerState → Nat → Nat → List (List Nat) → Nat → Game → User → ServerState)
    (hg : getGame s gid = some game) (h1 : game.status = GameStatus.waiting)
    (h2 : (getGameParticipants s gid).length < game.maxPlayers)
    (h3 : ((getGameParticipants s gid).find? fun q => q.userId == uid) = none)
    (hu : getUser s uid = none) :
    joinWith apply s gid uid card pid = (Except.error JoinError.insufficientFunds, s) := by
  simp [joinWith, hg, h1, Nat.not_le.mpr h2, h3, hu]

lemma joinWith_poorUser {s : ServerState} {gid uid pid : Nat} {card : List (List Nat)}
    {game : Game} {user : User}
    (apply : ServerState → Nat → Nat → List (List Nat) → Nat → Game → User → ServerState)
    (hg : getGame s gid = some game) (h1 : game.status = GameStatus.waiting)
    (h2 : (getGameParticipants s gid).length < game.maxPlayers)
    (h3 : ((getGameParticipants s gid).find? fun q => q.userId == uid) = none)
    (hu : getUser s uid = some user) (h4 : user.balance < game.entryFee) :
    joinWith apply s gid uid card pid = (Except.error JoinError.insufficientFunds, s) := by
  simp [joinWith, hg, h1, Nat.not_le.mpr h2, h3, hu, h4]

lemma joinWith_eq_ok {s : ServerState} {gid uid pid : Nat} {card : List (List Nat)}
    {game : Game} {user : User}
    (apply : ServerState → Nat → Nat → List (List Nat) → Nat → Game → User → ServerState)
    (hg : getGame s gid = some game) (h1 : game.status = GameStatus.waiting)
    (h2 : (getGameParticipants s gid).length < game.maxPlayers)
    (h3 : ((getGameParticipants s gid).find? fun q => q.userId == uid) = none)
    (hu : getUser s uid = some user) (h4 : game.entryFee ≤ user.balance) :
    joinWith apply s gid uid card pid =
      (Except.ok (mkParticipant pid gid uid card), apply s gid uid card pid game user) := by
  simp [joinWith, hg, h1, Nat.not_le.mpr h2, h3, hu, not_lt.mpr h4]

lemma joinWith_cases
    (apply : ServerState → Nat → Nat → List (List Nat) → Nat → Game → User → ServerState)
    (s : ServerState) (gid uid pid : Nat) (card : List (List Nat)) :
    (getGame s gid = none ∧
      joinWith apply s gid uid card pid = (Except.error JoinError.notFound, s)) ∨
    (∃ game, getGame s gid = some game ∧ game.status ≠ GameStatus.waiting ∧
      joinWith apply s gid uid card pid = (Except.error JoinError.invalidState, s)) ∨
    (∃ game, getGame s gid = some game ∧ game.status = GameStatus.waiting ∧
      game.maxPlayers ≤ (getGameParticipants s gid).length ∧
      joinWith apply s gid uid card pid = (Except.error JoinError.full, s)) ∨
    (∃ game, getGame s gid = some game ∧ game.status = GameStatus.waiting ∧
      (getGameParticipants s gid).length < game.maxPlayers ∧
      ((getGameParticipants s gid).find? fun q => q.userId == uid).isSome = true ∧
      joinWith apply s gid uid card pid = (Except.error JoinError.alreadyJoined, s)) ∨
    (∃ game, getGame s gid = some game ∧ game.status = GameStatus.waiting ∧
      (getGameParticipants s gid).length < game.maxPlayers ∧
      ((getGameParticipants s gid).find? fun q => q.userId == uid) = none ∧
      getUser s uid = none ∧
      joinWith apply s gid uid card pid = (Except.error JoinError.insufficientFunds, s)) ∨
    (∃ game user, getGame s gid = some game ∧ game.status = GameStatus.waiting ∧
      (getGameParticipants s gid).length < game.maxPlayers ∧
      ((getGameParticipants s gid).find? fun q => q.userId == uid) = none ∧
      getUser s uid = some user ∧ user.balance < game.entryFee ∧
      joinWith apply s gid uid card pid = (Except.error JoinError.insufficientFunds, s)) ∨
    (∃ game user, getGame s gid = some game ∧ game.status = GameStatus.waiting ∧
      (getGameParticipants s gid).length < game.maxPlayers ∧
      ((getGameParticipants s gid).find? fun q => q.userId == uid) = none ∧
      getUser s uid = some user ∧ game.entryFee ≤ user.balance ∧
      joinWith apply s gid uid card pid =
        (Except.ok (mkParticipant pid gid uid card), apply s gid uid card pid game user)) := by
  cases hg : getGame s gid with
  | none => exact Or.inl ⟨rfl, joinWith_notFound apply hg⟩
  | some game =>
    by_cases h1 : game.status = GameStatus.waiting
    · by_cases h2 : game.maxPlayers ≤ (getGameParticipants s gid).length
      · exact Or.inr (Or.inr (Or.inl ⟨game, rfl, h1, h2, joinWith_full apply hg h1 h2⟩))
      · have h2' := Nat.not_le.mp h2
        by_cases h3 : ((getGameParticipants s gid).find? fun q => q.userId == uid).isSome = true
        · exact Or.inr (Or.inr (Or.inr (Or.inl
            ⟨game, rfl, h1, h2', h3, joinWith_alreadyJoined apply hg h1 h2' h3⟩)))
        · have h3' : ((getGameParticipants s gid).find? fun q => q.userId == uid) = none := by
            simpa [Option.not_isSome_iff_eq_none] using h3
          cases hu : getUser s uid with
          | none => exact Or.inr (Or.inr (Or.inr (Or.inr (Or.inl
              ⟨game, rfl, h1, h2', h3', rfl, joinWith_noUser apply hg h1 h2' h3' hu⟩))))
          | some user =>
            by_cases h4 : user.balance < game.entryFee
            · exact Or.inr (Or.inr (Or.inr (Or.inr (Or.inr (Or.inl
                ⟨game, user, rfl, h1, h2', h3', rfl, h4,
                  joinWith_poorUser apply hg h1 h2' h3' hu h4⟩)))))
            · exact Or.inr (Or.inr (Or.inr (Or.inr (Or.inr (Or.inr
                ⟨game, user, rfl, h1, h2', h3', rfl, not_lt.mp h4,
                  joinWith_eq_ok apply hg h1 h2' h3' hu (not_lt.mp h4)⟩)))))
    · exact Or.inr (Or.inl ⟨game, rfl, h1, joinWith_invalidState apply hg h1⟩)


lemma joinWith_error_state
    {apply : ServerState → Nat → Nat → List (List Nat) → Nat → Game → User → ServerState}
    {s : ServerState} {gid uid pid : Nat} {card : List (List Nat)} {e : JoinError}
    (h : (joinWith apply s gid uid card pid).1 = Except.error e) :
    (joinWith apply s gid uid card pid).2 = s := by
  rcases joinWith_cases apply s gid uid pid card with
      ⟨-, he⟩ | ⟨g, -, -, he⟩ | ⟨g, -, -, -, he⟩ | ⟨g, -, -, -, -, he⟩ |
      ⟨g, -, -, -, -, -, he⟩ | ⟨g, u, -, -, -, -, -, -, he⟩ | ⟨g, u, -, -, -, -, -, -, he⟩ <;>
    rw [he] at h ⊢ <;> first | rfl | simp at h

lemma joinWith_ok_inv
    {apply : ServerState → Nat → Nat → List (List Nat) → Nat → Game → User → ServerState}
    {s : ServerState} {gid uid pid : Nat} {card : List (List Nat)} {p : Participant}
    (h : (joinWith apply s gid uid card pid).1 = Except.ok p) :
    ∃ game user, getGame s gid = some game ∧ game.status = GameStatus.waiting ∧
      (getGameParticipants s gid).length < game.maxPlayers ∧
      ((getGameParticipants s gid).find? fun q => q.userId == uid) = none ∧
      getUser s uid = some user ∧ game.entryFee ≤ user.balance ∧
      p = mkParticipant pid gid uid card ∧
      (joinWith apply s gid uid card pid).2 = apply s gid uid card pid game user := by
  rcases joinWith_cases apply s gid uid pid card with
      ⟨-, he⟩ | ⟨g, -, -, he⟩ | ⟨g, -, -, -, he⟩ | ⟨g, -, -, -, -, he⟩ |
      ⟨g, -, -, -, -, -, he⟩ | ⟨g, u, -, -, -, -, -, -, he⟩ |
      ⟨g, u, hg, h1, h2, h3, hu, h4, he⟩
  · rw [he] at h; simp at h
  · rw [he] at h; simp at h
  · rw [he] at h; simp at h
  · rw [he] at h; simp at h
  · rw [he] at h; simp at h
  · rw [he] at h; simp at h
  · rw [he] at h
    simp only [Except.ok.injEq] at h
    exact ⟨g, u, hg, h1, h2, h3, hu, h4, h.symm, by rw [he]⟩

lemma joinWith_full_inv
    {apply : ServerState → Nat → Nat → List (List Nat) → Nat → Game → User → ServerState}
    {s : ServerState} {gid uid pid : Nat} {card : List (List Nat)}
    (h : (joinWith apply s gid uid card pid).1 = Except.error JoinError.full) :
    ∃ game, getGame s gid = some game ∧ game.status = GameStatus.waiting ∧
      game.maxPlayers ≤ (getGameParticipants s gid).length := by
  rcases joinWith_cases apply s gid uid pid card with
      ⟨-, he⟩ | ⟨g, -, -, he⟩ | ⟨g, hg, h1, h2, he⟩ | ⟨g, -, -, -, -, he⟩ |
      ⟨g, -, -, -, -, -, he⟩ | ⟨g, u, -, -, -, -, -, -, he⟩ | ⟨g, u, -, -, -, -, -, -, he⟩ <;>
    rw [he] at h <;> first | exact ⟨g, hg, h1, h2⟩ | simp at h

/-- C3.  The join validation sequence: NotFound for a missing session,
else InvalidState outside 'waiting', else Full at capacity, else
AlreadyJoined for an existing participant row, else InsufficientFunds
when the balance is below the stake — in exactly this order, and on any
failure the state is returned unchanged. -/
theorem c3_join_check_order (s : ServerState) (gid uid pid : Nat) (card : List (List Nat)) :
    (getGame s gid = none →
      joinGame s gid uid card pid = (Except.error JoinError.notFound, s)) ∧
    (∀ game, getGame s gid = some game → game.status ≠ GameStatus.waiting →
      joinGame s gid uid card pid = (Except.error JoinError.invalidState, s)) ∧
    (∀ game, getGame s gid = some game → game.status = GameStatus.waiting →
      game.maxPlayers ≤ (getGameParticipants s gid).length →
      joinGame s gid uid card pid = (Except.error JoinError.full, s)) ∧
    (∀ game, getGame s gid = some game → game.status = GameStatus.waiting →
      (getGameParticipants s gid).length < game.maxPlayers →
      (∃ q ∈ getGameParticipants s gid, q.userId = uid) →
      joinGame s gid uid card pid = (Except.error JoinError.alreadyJoined, s)) ∧
    (∀ game user, getGame s gid = some game → game.status = GameStatus.waiting →
      (getGameParticipants s gid).length < game.maxPlayers →
      (∀ q ∈ getGameParticipants s gid, q.userId ≠ uid) →
      getUser s uid = some user → user.balance < game.entryFee →
      joinGame s gid uid card pid = (Except.error JoinError.insufficientFunds, s)) ∧
    (∀ e, (joinGame s gid uid card pid).1 = Except.error e →
      (joinGame s gid uid card pid).2 = s) := by
  refine ⟨fun hg => joinWith_notFound _ hg,
    fun game hg h1 => joinWith_invalidState _ hg h1,
    fun game hg h1 h2 => joinWith_full _ hg h1 h2,
    fun game hg h1 h2 hex => ?_,
    fun game user hg h1 h2 hnone hu h4 => joinWith_poorUser _ hg h1 h2 ?_ hu h4,
    fun e he => joinWith_error_state he⟩
  · refine joinWith_alreadyJoined _ hg h1 h2 ?_
    rw [List.find?_isSome]
    obtain ⟨q, hq, hq2⟩ := hex
    exact ⟨q, hq, by simpa using hq2⟩
  · rw [List.find?_eq_none]
    intro q hq
    simpa using hnone q hq

/-- Witness for C3: on the empty database, joining game 1 fails with
NotFound and leaves the state unchanged. -/
theorem c3_join_check_order_witness :
    joinGame emptyState 1 2 [] 3 = (Except.error JoinError.notFound, emptyState) :=
  (c3_join_check_order emptyState 1 2 3 []).1 rfl


/-! Effects of the join success tail, stage by stage. -/

lemma joinDebit_participants (s : ServerState) (gid uid pid : Nat) (card : List (List Nat))
    (game : Game) (user : User) (t : Nat) :
    getGameParticipants (joinDebit s gid uid card pid game user) t =
      getGameParticipants s t ++ if gid = t then [mkParticipant pid gid uid card] else [] := by
  simp only [joinDebit, addParticipant, createTransaction, updateUserBalance,
    getGameParticipants, mkParticipant, List.filter_append]
  congr 1
  by_cases hgt : gid = t <;> simp [hgt]

lemma joinDebit_getGame (s : ServerState) (gid uid pid : Nat) (card : List (List Nat))
    (game : Game) (user : User) (t : Nat) :
    getGame (joinDebit s gid uid card pid game user) t = getGame s t := rfl

lemma joinCore_participants (s : ServerState) (gid uid pid : Nat) (card : List (List Nat))
    (game : Game) (user : User) (t : Nat) :
    getGameParticipants (joinCore s gid uid card pid game user) t =
      getGameParticipants s t ++ if gid = t then [mkParticipant pid gid uid card] else [] := by
  rw [show getGameParticipants (joinCore s gid uid card pid game user) t
      = getGameParticipants (joinDebit s gid uid card pid game user) t from rfl,
    joinDebit_participants]

lemma joinCore_getGame (s : ServerState) (gid uid pid : Nat) (card : List (List Nat))
    (game : Game) (user : User) (t : Nat) :
    getGame (joinCore s gid uid card pid game user) t =
      (getGame s t).map fun g =>
        if g.id == gid then { g with prizePool := game.prizePool + game.entryFee } else g := by
  unfold joinCore updateGamePrizePool
  rw [getGame_updateGame (joinDebit s gid uid card pid game user) gid t
      (fun g => { g with prizePool := game.prizePool + game.entryFee }) (fun g => rfl),
    joinDebit_getGame]

lemma joinStart_participants (s4 : ServerState) (gid t : Nat) :
    getGameParticipants (joinStart s4 gid) t = getGameParticipants s4 t := by
  unfold joinStart
  split
  · split <;> rfl
  · rfl

lemma updateGameStatus_getGame (s : ServerState) (gid t : Nat) (st : GameStatus) :
    getGame (updateGameStatus s gid st) t =
      (getGame s t).map fun g => if g.id == gid then { g with status := st } else g := by
  unfold updateGameStatus
  rw [getGame_updateGame s gid t (fun g => { g with status := st }) (fun g => rfl)]

lemma joinStart_getGame (s4 : ServerState) (gid t : Nat) :
    getGame (joinStart s4 gid) t =
      if 2 ≤ (getGameParticipants s4 gid).length then
        (getGame s4 t).map fun g =>
          if g.id == gid then { g with status := GameStatus.active } else g
      else getGame s4 t := by
  unfold joinStart
  split
  · split
    · rw [getGame_set_events, updateGameStatus_getGame]
    · rw [updateGameStatus_getGame]
  · rfl

lemma joinStart_events (s4 : ServerState) (gid : Nat) :
    (joinStart s4 gid).events =
      s4.events ++ if 2 ≤ (getGameParticipants s4 gid).length ∧ gid ∈ s4.rooms
        then [Event.gameStarted gid] else [] := by
  unfold joinStart
  by_cases h2 : 2 ≤ (getGameParticipants s4 gid).length
  · rw [if_pos h2]
    by_cases hroom : gid ∈ (updateGameStatus s4 gid GameStatus.active).rooms
    · rw [if_pos hroom, if_pos ⟨h2, hroom⟩]
      rfl
    · rw [if_neg hroom, if_neg (fun hand => hroom hand.2), List.append_nil]
      rfl
  · rw [if_neg h2, if_neg (fun hand => h2 hand.1), List.append_nil]

lemma joinStart_rooms (s4 : ServerState) (gid : Nat) :
    (joinStart s4 gid).rooms = s4.rooms := by
  unfold joinStart
  split
  · split <;> rfl
  · rfl


lemma joinGame_ok_inv {s : ServerState} {gid uid pid : Nat} {card : List (List Nat)}
    {p : Participant} {s2 : ServerState}
    (h : joinGame s gid uid card pid = (Except.ok p, s2)) :
    ∃ game user, getGame s gid = some game ∧ game.status = GameStatus.waiting ∧
      (getGameParticipants s gid).length < game.maxPlayers ∧
      ((getGameParticipants s gid).find? fun q => q.userId == uid) = none ∧
      getUser s uid = some user ∧ game.entryFee ≤ user.balance ∧
      p = mkParticipant pid gid uid card ∧
      s2 = joinApply s gid uid card pid game user := by
  have h1 : (joinWith joinApply s gid uid card pid).1 = Except.ok p := by
    rw [show joinWith joinApply s gid uid card pid = joinGame s gid uid card pid from rfl, h]
  obtain ⟨game, user, hg, hst, hlt, hfind, hu, hfee, hp, hs2⟩ := joinWith_ok_inv h1
  refine ⟨game, user, hg, hst, hlt, hfind, hu, hfee, hp, ?_⟩
  rw [← hs2, show joinWith joinApply s gid uid card pid = joinGame s gid uid card pid from rfl, h]

/-- C4.  A successful join starts from a 'waiting' session; if the
resulting participant count reaches 2 the session becomes 'active' and
`game_started` is broadcast to the room when one exists, and below the
threshold both the status and the broadcast log are unchanged. -/
theorem c4_join_start_threshold (s : ServerState) (gid uid pid : Nat)
    (card : List (List Nat)) (p : Participant) (s2 : ServerState)
    (h : joinGame s gid uid card pid = (Except.ok p, s2)) :
    (getGame s gid).map Game.status = some GameStatus.waiting ∧
    (2 ≤ (getGameParticipants s2 gid).length →
      (getGame s2 gid).map Game.status = some GameStatus.active ∧
      (gid ∈ s.rooms → s2.events = s.events ++ [Event.gameStarted gid])) ∧
    ((getGameParticipants s2 gid).length < 2 →
      (getGame s2 gid).map Game.status = (getGame s gid).map Game.status ∧
      s2.events = s.events) := by
  obtain ⟨game, user, hg, hst, hlt, hfind, hu, hfee, hp, hs2⟩ := joinGame_ok_inv h
  subst hs2
  have hid : game.id = gid := by simpa using List.find?_some hg
  have hcorecnt : (getGameParticipants (joinCore s gid uid card pid game user) gid).length
      = (getGameParticipants s gid).length + 1 := by
    rw [joinCore_participants]
    simp
  have hcount : (getGameParticipants (joinApply s gid uid card pid game user) gid).length
      = (getGameParticipants s gid).length + 1 := by
    rw [show joinApply s gid uid card pid game user
        = joinStart (joinCore s gid uid card pid game user) gid from rfl,
      joinStart_participants, hcorecnt]
  refine ⟨by rw [hg]; simp [hst], ?_, ?_⟩
  · intro h2
    rw [hcount] at h2
    have h2' : 2 ≤ (getGameParticipants (joinCore s gid uid card pid game user) gid).length := by
      rw [hcorecnt]; exact h2
    constructor
    · rw [show joinApply s gid uid card pid game user
          = joinStart (joinCore s gid uid card pid game user) gid from rfl,
        joinStart_getGame, if_pos h2', joinCore_getGame, hg]
      simp [hid]
    · intro hroom
      rw [show joinApply s gid uid card pid game user
          = joinStart (joinCore s gid uid card pid game user) gid from rfl,
        joinStart_events, if_pos ⟨h2', hroom⟩]
      rfl
  · intro h3
    rw [hcount] at h3
    have h3' : ¬ 2 ≤ (getGameParticipants (joinCore s gid uid card pid game user) gid).length := by
      rw [hcorecnt]; omega
    constructor
    · rw [show joinApply s gid uid card pid game user
          = joinStart (joinCore s gid uid card pid game user) gid from rfl,
        joinStart_getGame, if_neg h3', joinCore_getGame, hg]
      simp [hid]
    · rw [show joinApply s gid uid card pid game user
          = joinStart (joinCore s gid uid card pid game user) gid from rfl,
        joinStart_events, if_neg (fun hand => h3' hand.1), List.append_nil]
      rfl

/-- Witness for C4: user 2's join to the one-player game of
`joinStartState` reaches the threshold, activates the game and
broadcasts `game_started` to its room. -/
theorem c4_join_start_threshold_witness :
    2 ≤ (getGameParticipants (joinGame joinStartState 1 2 sampleCard 2).2 1).length ∧
    (getGame (joinGame joinStartState 1 2 sampleCard 2).2 1).map Game.status
      = some GameStatus.active ∧
    (joinGame joinStartState 1 2 sampleCard 2).2.events
      = joinStartState.events ++ [Event.gameStarted 1] := by
  have h1 : (joinGame joinStartState 1 2 sampleCard 2).1
      = Except.ok (mkParticipant 2 1 2 sampleCard) := by decide
  have h : joinGame joinStartState 1 2 sampleCard 2 =
      (Except.ok (mkParticipant 2 1 2 sampleCard),
        (joinGame joinStartState 1 2 sampleCard 2).2) := by
    rw [← h1]
  have H := c4_join_start_threshold joinStartState 1 2 2 sampleCard
    (mkParticipant 2 1 2 sampleCard) ((joinGame joinStartState 1 2 sampleCard 2).2) h
  have hc : 2 ≤ (getGameParticipants (joinGame joinStartState 1 2 sampleCard 2).2 1).length := by
    decide
  exact ⟨hc, (H.2.1 hc).1, (H.2.1 hc).2 (by decide)⟩


/-! Join reachability: once two joins have succeeded the session leaves
'waiting', so the capacity check can never fire for capacities above 2. -/

lemma getGame_map_ne (s : ServerState) (gid gid2 : Nat) (hne : gid ≠ gid2) (f : Game → Game) :
    (getGame s gid).map (fun g => if g.id == gid2 then f g else g) = getGame s gid := by
  cases hgm : getGame s gid with
  | none => rfl
  | some g =>
    have hid : g.id = gid := by simpa using List.find?_some hgm
    simp [hid, hne]

lemma joinApply_participants_count (s : ServerState) (gid uid pid : Nat)
    (card : List (List Nat)) (game : Game) (user : User) :
    (getGameParticipants (joinApply s gid uid card pid game user) gid).length
      = (getGameParticipants s gid).length + 1 := by
  rw [show joinApply s gid uid card pid game user
      = joinStart (joinCore s gid uid card pid game user) gid from rfl,
    joinStart_participants, joinCore_participants]
  simp

lemma joinReach_inv (gid : Nat) (s : ServerState) (h : JoinReach gid s) :
    (getGameParticipants s gid).length ≤ 2 ∧
    (∀ g, getGame s gid = some g → g.status = GameStatus.waiting →
      (getGameParticipants s gid).length ≤ 1) := by
  induction h with
  | init s hfresh =>
    obtain ⟨-, hparts⟩ := hfresh
    rw [hparts]
    simp
  | step s gid2 uid pid card hreach ih =>
    obtain ⟨ih1, ih2⟩ := ih
    rcases hr : (joinGame s gid2 uid card pid).1 with e | p
    · have hframe : (joinGame s gid2 uid card pid).2 = s := joinWith_error_state hr
      rw [hframe]
      exact ⟨ih1, ih2⟩
    · obtain ⟨game, user, hg, hst, hlt, hfind, hu, hfee, -, hs2⟩ := joinWith_ok_inv hr
      rw [show (joinGame s gid2 uid card pid).2
          = joinApply s gid2 uid card pid game user from hs2]
      by_cases hsame : gid2 = gid
      · subst hsame
        have hw : (getGameParticipants s gid2).length ≤ 1 := ih2 game hg hst
        have hcnt := joinApply_participants_count s gid2 uid pid card game user
        have hid : game.id = gid2 := by simpa using List.find?_some hg
        constructor
        · rw [hcnt]; omega
        · intro g2 hg2 hst2
          rw [show joinApply s gid2 uid card pid game user
              = joinStart (joinCore s gid2 uid card pid game user) gid2 from rfl,
            joinStart_getGame] at hg2
          by_cases hth : 2 ≤ (getGameParticipants
              (joinCore s gid2 uid card pid game user) gid2).length
          · rw [if_pos hth, joinCore_getGame, hg] at hg2
            simp only [Option.map_some', hid, beq_self_eq_true, if_true, reduceIte,
              Option.some.injEq] at hg2
            have : g2.status = GameStatus.active := by rw [← hg2]
            rw [this] at hst2
            exact absurd hst2 (by simp)
          · rw [hcnt]
            rw [joinCore_participants] at hth
            simp at hth
            simp [hth]
      · have hsame2 : gid ≠ gid2 := fun he => hsame he.symm
        have hcnt : getGameParticipants (joinApply s gid2 uid card pid game user) gid
            = getGameParticipants s gid := by
          rw [show joinApply s gid2 uid card pid game user
              = joinStart (joinCore s gid2 uid card pid game user) gid2 from rfl,
            joinStart_participants, joinCore_participants, if_neg hsame, List.append_nil]
        have hgg : getGame (joinApply s gid2 uid card pid game user) gid = getGame s gid := by
          rw [show joinApply s gid2 uid card pid game user
              = joinStart (joinCore s gid2 uid card pid game user) gid2 from rfl,
            joinStart_getGame]
          split
          · rw [joinCore_getGame, getGame_map_ne s gid gid2 hsame2,
              getGame_map_ne s gid gid2 hsame2]
          · rw [joinCore_getGame, getGame_map_ne s gid gid2 hsame2]
        constructor
        · rw [hcnt]; exact ih1
        · intro g2 hg2 hst2
          rw [hgg] at hg2
          rw [hcnt]
          exact ih2 g2 hg2 hst2

/-- C5.  Along any join-reachable history of a session, the participant
count never exceeds 2, and for a capacity above 2 the Full failure of
the join operation is unreachable: after two successful joins the
session is no longer 'waiting', so later joins fail at the earlier
InvalidState check. -/
theorem c5_full_unreachable (gid : Nat) (s : ServerState) (h : JoinReach gid s) :
    (getGameParticipants s gid).length ≤ 2 ∧
    ∀ g, getGame s gid = some g → 2 < g.maxPlayers →
      ∀ uid card pid, (joinGame s gid uid card pid).1 ≠ Except.error JoinError.full := by
  obtain ⟨h1, h2⟩ := joinReach_inv gid s h
  refine ⟨h1, fun g hg hmax uid card pid hfull => ?_⟩
  obtain ⟨game, hgame, hwait, hcnt⟩ := joinWith_full_inv hfull
  rw [hg] at hgame
  injection hgame with he
  subst he
  have hle := h2 g hg hwait
  omega

/-- Witness for C5: in the freshly created capacity-3 game of
`freshState`, the participant count is within bound and a join cannot
fail with Full. -/
theorem c5_full_unreachable_witness :
    (getGameParticipants freshState 1).length ≤ 2 ∧
    (joinGame freshState 1 7 [] 9).1 ≠ Except.error JoinError.full := by
  have H := c5_full_unreachable 1 freshState
    (JoinReach.init freshState (by refine ⟨?_, ?_⟩ <;> decide))
  have hg : getGame freshState 1
      = some ⟨1, GameStatus.waiting, 1, 0, 3, [], none, none⟩ := by decide
  exact ⟨H.1, H.2 _ hg (by decide) 7 [] 9⟩


/-! Scheduler tick: fresh draw, append-only growth, exhaustion no-op. -/

lemma getD_mem_of_pos {l : List String} (r : Nat) (h : 0 < l.length) :
    l.getD (r % l.length) "" ∈ l := by
  have hidx : r % l.length < l.length := Nat.mod_lt _ h
  rw [List.getD_eq_get _ _ hidx]
  exact List.get_mem _ _ _

/-- C6.  One scheduler tick on an Active session with a live room: when
uncalled labels remain, exactly one fresh label (drawn from the
complement of the 75 labels minus the called sequence) is appended to
the called sequence and broadcast, and duplicate-freeness is preserved;
when all 75 labels have been called, the tick changes nothing. -/
theorem c6_tick_spec (s : ServerState) (gid : Nat) (g : Game) (rand : Nat)
    (hroom : gid ∈ s.rooms) (hg : getGame s gid = some g)
    (hact : g.status = GameStatus.active) :
    (availableNumbers g.calledNumbers ≠ [] →
      ∃ n, n ∈ allBingoLabels ∧ n ∉ g.calledNumbers ∧
        (getGame (callNumberTick s gid rand) gid).map Game.calledNumbers
          = some (g.calledNumbers ++ [n]) ∧
        (g.calledNumbers.Nodup → (g.calledNumbers ++ [n]).Nodup) ∧
        (callNumberTick s gid rand).events
          = s.events ++ [Event.numberCalled gid n (g.calledNumbers ++ [n])]) ∧
    ((∀ l ∈ allBingoLabels, l ∈ g.calledNumbers) → callNumberTick s gid rand = s) := by
  have hid : g.id = gid := by simpa using List.find?_some hg
  constructor
  · intro hne
    have hlen : 0 < (availableNumbers g.calledNumbers).length :=
      List.length_pos.mpr hne
    have hmem : (availableNumbers g.calledNumbers).getD
        (rand % (availableNumbers g.calledNumbers).length) "" ∈
          availableNumbers g.calledNumbers := getD_mem_of_pos rand hlen
    obtain ⟨hlab, hncon⟩ := List.mem_filter.mp hmem
    have hnotin : (availableNumbers g.calledNumbers).getD
        (rand % (availableNumbers g.calledNumbers).length) "" ∉ g.calledNumbers := by
      simpa [List.contains, List.elem_iff] using hncon
    refine ⟨_, hlab, hnotin, ?_, ?_, ?_⟩
    · have htick : callNumberTick s gid rand =
          { updateGameCurrentNumber s gid
              ((availableNumbers g.calledNumbers).getD
                (rand % (availableNumbers g.calledNumbers).length) "")
              (g.calledNumbers ++ [(availableNumbers g.calledNumbers).getD
                (rand % (availableNumbers g.calledNumbers).length) ""]) with
            events := (updateGameCurrentNumber s gid
              ((availableNumbers g.calledNumbers).getD
                (rand % (availableNumbers g.calledNumbers).length) "")
              (g.calledNumbers ++ [(availableNumbers g.calledNumbers).getD
                (rand % (availableNumbers g.calledNumbers).length) ""])).events
              ++ [Event.numberCalled gid
                ((availableNumbers g.calledNumbers).getD
                  (rand % (availableNumbers g.calledNumbers).length) "")
                (g.calledNumbers ++ [(availableNumbers g.calledNumbers).getD
                  (rand % (availableNumbers g.calledNumbers).length) ""])] } := by
        unfold callNumberTick
        rw [if_pos hroom]
        simp only [hg]
        rw [if_pos hact, if_pos hlen]
      rw [htick, getGame_set_events]
      unfold updateGameCurrentNumber
      rw [getGame_updateGame s gid gid
        (fun g2 => { g2 with
          currentNumber := some ((availableNumbers g.calledNumbers).getD
            (rand % (availableNumbers g.calledNumbers).length) ""),
          calledNumbers := g.calledNumbers ++ [(availableNumbers g.calledNumbers).getD
            (rand % (availableNumbers g.calledNumbers).length) ""] })
        (fun g2 => rfl), hg]
      simp [hid]
    · intro hnd
      rw [List.nodup_append]
      refine ⟨hnd, List.nodup_singleton _, fun a ha hb => ?_⟩
      simp only [List.mem_singleton] at hb
      rw [hb] at ha
      exact hnotin ha
    · have htick2 : (callNumberTick s gid rand).events =
          s.events ++ [Event.numberCalled gid
            ((availableNumbers g.calledNumbers).getD
              (rand % (availableNumbers g.calledNumbers).length) "")
            (g.calledNumbers ++ [(availableNumbers g.calledNumbers).getD
              (rand % (availableNumbers g.calledNumbers).length) ""])] := by
        unfold callNumberTick
        rw [if_pos hroom]
        simp only [hg]
        rw [if_pos hact, if_pos hlen]
        rfl
      exact htick2
  · intro hall
    have hav : availableNumbers g.calledNumbers = [] := by
      rw [availableNumbers, List.filter_eq_nil]
      intro l hl
      simp [List.contains, List.elem_iff, hall l hl]
    unfold callNumberTick
    rw [if_pos hroom]
    simp only [hg]
    rw [if_pos hact, hav]
    simp

/-- Witness for C6: a tick on the fresh active game of `tickState`
draws a fresh label and appends it. -/
theorem c6_tick_spec_witness :
    ∃ n, n ∈ allBingoLabels ∧ n ∉ ([] : List String) ∧
      (getGame (callNumberTick tickState 1 0) 1).map Game.calledNumbers
        = some (([] : List String) ++ [n]) ∧
      (([] : List String).Nodup → (([] : List String) ++ [n]).Nodup) ∧
      (callNumberTick tickState 1 0).events
        = tickState.events ++ [Event.numberCalled 1 n (([] : List String) ++ [n])] :=
  (c6_tick_spec tickState 1 ⟨1, GameStatus.active, 1, 2, 8, [], none, none⟩ 0
    (by decide) (by decide) rfl).1 (by decide)


/-- C1.  Evaluation at the failing input: on `settledState` (already
'completed', winner user 1, pool 6 paid out once) a second winning
`mark_number` submission by participant 2 runs the whole settlement
again — the winner row is overwritten to user 2, a second completed
`game_win` transaction is recorded, user 2 is paid the pool, and a
second `game_won` broadcast goes out.  The handler never reads the
session's settled status. -/
theorem c1_double_settlement_eval :
    (getGame settledState 1).map Game.status = some GameStatus.completed ∧
    (getGame settledState 1).map Game.winnerId = some (some 1) ∧
    (settledState.transactions.filter fun t => t.type == TxnType.gameWin).length = 1 ∧
    ((markNumber settledState 1 2 [3, 18, 33, 48, 63]).transactions.filter
        fun t => t.type == TxnType.gameWin).length = 2 ∧
    (getGame (markNumber settledState 1 2 [3, 18, 33, 48, 63]) 1).map Game.winnerId
      = some (some 2) ∧
    (getUser (markNumber settledState 1 2 [3, 18, 33, 48, 63]) 2).map User.balance
      = some 13 ∧
    (markNumber settledState 1 2 [3, 18, 33, 48, 63]).events
      = [Event.gameWon 1 1 6, Event.gameWon 1 2 6] := by
  have hw : checkWinCondition sampleCard [3, 18, 33, 48, 63] = true := by decide
  refine ⟨by decide, by decide, by decide, by decide, by decide, ?_, by decide⟩
  simp [markNumber, winSettleState, broadcastWin, settledState,
    updateParticipantMarkedNumbers, getGameParticipants, getUser, getGame, setGameWinner,
    updateGame, updateUserBalance, createTransaction, hw]
  norm_num

/-- C2.  Evaluation of the balance/pool arithmetic: the current join
handler debits the stake (balance 10 to 7) and raises the pool by the
stake (0 to 3); the legacy Stripe-era join variant performs the same
debit and returns the same result but never persists the recomputed
pool, which stays 0; and settlement credits the winner with exactly the
prize pool at settlement time (balance 7 plus pool 6 gives 13). -/
theorem c2_balance_and_pool_eval :
    (getUser (joinGame joinState 1 2 sampleCard 1).2 2).map User.balance = some 7 ∧
    (getGame (joinGame joinState 1 2 sampleCard 1).2 1).map Game.prizePool = some 3 ∧
    (joinGameLegacy joinState 1 2 sampleCard 1).1 = (joinGame joinState 1 2 sampleCard 1).1 ∧
    (getUser (joinGameLegacy joinState 1 2 sampleCard 1).2 2).map User.balance = some 7 ∧
    (getGame (joinGameLegacy joinState 1 2 sampleCard 1).2 1).map Game.prizePool = some 0 ∧
    (getUser winState 2).map User.balance = some 7 ∧
    (getGame winState 1).map Game.prizePool = some 6 ∧
    (getUser (markNumber winState 1 2 [3, 18, 33, 48, 63]) 2).map User.balance = some 13 := by
  have hw : checkWinCondition sampleCard [3, 18, 33, 48, 63] = true := by decide
  refine ⟨?_, ?_, by decide, ?_, by decide, by decide, by decide, ?_⟩
  · norm_num [joinGame, joinWith, joinApply, joinStart, joinCore, joinDebit, joinState,
      mkParticipant, addParticipant, createTransaction, updateUserBalance,
      updateGamePrizePool, updateGameStatus, updateGame, getGame, getUser,
      getGameParticipants]
  · norm_num [joinGame, joinWith, joinApply, joinStart, joinCore, joinDebit, joinState,
      mkParticipant, addParticipant, createTransaction, updateUserBalance,
      updateGamePrizePool, updateGameStatus, updateGame, getGame, getUser,
      getGameParticipants]
  · norm_num [joinGameLegacy, joinWith, joinApplyLegacy, joinStart, joinDebit, joinState,
      mkParticipant, addParticipant, createTransaction, updateUserBalance,
      updateGameStatus, updateGame, getGame, getUser, getGameParticipants]
  · simp [markNumber, winSettleState, broadcastWin, winState,
      updateParticipantMarkedNumbers, getGameParticipants, getUser, getGame, setGameWinner,
      updateGame, updateUserBalance, createTransaction, hw]
    norm_num


/-! Noninterference of the called-number sequence with settlement. -/

lemma eraseCalled_ext {s t : ServerState}
    (hu : s.users = t.users)
    (hg : s.games.map eraseGameCalled = t.games.map eraseGameCalled)
    (hp : s.participants = t.participants) (ht : s.transactions = t.transactions)
    (hr : s.rooms = t.rooms) (he : s.events = t.events) :
    eraseCalled s = eraseCalled t := by
  unfold eraseCalled
  cases s
  cases t
  simp_all

lemma eraseCalled_parts {s t : ServerState} (h : eraseCalled s = eraseCalled t) :
    s.users = t.users ∧ s.games.map eraseGameCalled = t.games.map eraseGameCalled ∧
    s.participants = t.participants ∧ s.transactions = t.transactions ∧
    s.rooms = t.rooms ∧ s.events = t.events := by
  have h1 : (eraseCalled s).users = (eraseCalled t).users := congrArg ServerState.users h
  have h2 : (eraseCalled s).games = (eraseCalled t).games := congrArg ServerState.games h
  have h3 : (eraseCalled s).participants = (eraseCalled t).participants :=
    congrArg ServerState.participants h
  have h4 : (eraseCalled s).transactions = (eraseCalled t).transactions :=
    congrArg ServerState.transactions h
  have h5 : (eraseCalled s).rooms = (eraseCalled t).rooms := congrArg ServerState.rooms h
  have h6 : (eraseCalled s).events = (eraseCalled t).events := congrArg ServerState.events h
  exact ⟨h1, h2, h3, h4, h5, h6⟩

lemma map_erase_congr {l₁ l₂ : List Game} (f : Game → Game)
    (hcomm : ∀ g, eraseGameCalled (f g) = f (eraseGameCalled g))
    (h : l₁.map eraseGameCalled = l₂.map eraseGameCalled) :
    (l₁.map f).map eraseGameCalled = (l₂.map f).map eraseGameCalled := by
  have hfe : eraseGameCalled ∘ f = f ∘ eraseGameCalled := funext fun g => hcomm g
  rw [List.map_map, List.map_map, hfe, ← List.map_map, h, List.map_map]

lemma find?_erase_congr (p : Game → Bool) (hp : ∀ g, p (eraseGameCalled g) = p g) :
    ∀ {l₁ l₂ : List Game}, l₁.map eraseGameCalled = l₂.map eraseGameCalled →
      (l₁.find? p).map eraseGameCalled = (l₂.find? p).map eraseGameCalled := by
  intro l₁
  induction l₁ with
  | nil =>
    intro l₂ h
    rw [List.eq_nil_of_map_eq_nil h.symm]
  | cons a t ih =>
    intro l₂ h
    cases l₂ with
    | nil => simp at h
    | cons b t₂ =>
      simp only [List.map_cons, List.cons.injEq] at h
      obtain ⟨hab, ht⟩ := h
      by_cases hpa : p a = true
      · have hpb : p b = true := by rw [← hp b, ← hab, hp a]; exact hpa
        rw [List.find?_cons_of_pos _ hpa, List.find?_cons_of_pos _ hpb]
        simpa using hab
      · have hpb : ¬ p b = true := by rw [← hp b, ← hab, hp a]; exact hpa
        rw [List.find?_cons_of_neg _ hpa, List.find?_cons_of_neg _ hpb]
        exact ih ht

lemma markNumber_called_noninterference (s₁ s₂ : ServerState) (gid pid : Nat)
    (marked : List Nat) (h : eraseCalled s₁ = eraseCalled s₂) :
    eraseCalled (markNumber s₁ gid pid marked) = eraseCalled (markNumber s₂ gid pid marked) := by
  obtain ⟨hu, hg, hp, ht, hr, he⟩ := eraseCalled_parts h
  have hp1 : (updateParticipantMarkedNumbers s₁ pid marked).participants
      = (updateParticipantMarkedNumbers s₂ pid marked).participants := by
    simp only [updateParticipantMarkedNumbers]
    rw [hp]
  have hfind : (getGameParticipants (updateParticipantMarkedNumbers s₁ pid marked) gid).find?
        (fun p => p.id == pid)
      = (getGameParticipants (updateParticipantMarkedNumbers s₂ pid marked) gid).find?
        (fun p => p.id == pid) := by
    unfold getGameParticipants
    rw [hp1]
  have hbase : eraseCalled (updateParticipantMarkedNumbers s₁ pid marked)
      = eraseCalled (updateParticipantMarkedNumbers s₂ pid marked) :=
    eraseCalled_ext hu hg hp1 ht hr he
  simp only [markNumber]
  rw [← hfind]
  split
  · exact hbase
  rename_i player heq
  by_cases hw : checkWinCondition player.bingoCard marked = true
  case neg => rw [if_neg hw, if_neg hw]; exact hbase
  rw [if_pos hw, if_pos hw]
  have hu2 : (setGameWinner (updateParticipantMarkedNumbers s₁ pid marked) gid
        player.userId).users
      = (setGameWinner (updateParticipantMarkedNumbers s₂ pid marked) gid
        player.userId).users := hu
  have hg2 : (setGameWinner (updateParticipantMarkedNumbers s₁ pid marked) gid
        player.userId).games.map eraseGameCalled
      = (setGameWinner (updateParticipantMarkedNumbers s₂ pid marked) gid
        player.userId).games.map eraseGameCalled := by
    show ((s₁.games.map fun g => if g.id == gid then
        { g with winnerId := some player.userId, status := GameStatus.completed }
      else g).map eraseGameCalled)
      = ((s₂.games.map fun g => if g.id == gid then
        { g with winnerId := some player.userId, status := GameStatus.completed }
      else g).map eraseGameCalled)
    exact map_erase_congr _
      (fun g => by by_cases hgg : (g.id == gid) = true <;> simp [eraseGameCalled, hgg]) hg
  have hgame : (getGame (setGameWinner (updateParticipantMarkedNumbers s₁ pid marked) gid
        player.userId) gid).map eraseGameCalled
      = (getGame (setGameWinner (updateParticipantMarkedNumbers s₂ pid marked) gid
        player.userId) gid).map eraseGameCalled := by
    unfold getGame
    exact find?_erase_congr (fun g => g.id == gid) (fun g => rfl) hg2
  split
  · rename_i hgame1
    split
    · exact eraseCalled_ext hu2 hg2 hp1 ht hr he
    · rename_i game2 hgame2
      rw [hgame1, hgame2] at hgame
      simp at hgame
  · rename_i game1 hgame1
    split
    · rename_i hgame2
      rw [hgame1, hgame2] at hgame
      simp at hgame
    · rename_i game2 hgame2
      rw [hgame1, hgame2] at hgame
      simp only [Option.map_some', Option.some.injEq] at hgame
      have hpool0 := congrArg Game.prizePool hgame
      have hpool : game1.prizePool = game2.prizePool := hpool0
      have huser : getUser (setGameWinner (updateParticipantMarkedNumbers s₁ pid marked) gid
            player.userId) player.userId
          = getUser (setGameWinner (updateParticipantMarkedNumbers s₂ pid marked) gid
            player.userId) player.userId := by
        unfold getUser
        rw [hu2]
      cases huser1 : getUser (setGameWinner (updateParticipantMarkedNumbers s₁ pid marked) gid
          player.userId) player.userId with
      | none =>
        have hws1 : winSettleState (setGameWinner (updateParticipantMarkedNumbers s₁ pid marked)
              gid player.userId) gid player.userId game1
            = setGameWinner (updateParticipantMarkedNumbers s₁ pid marked) gid player.userId := by
          unfold winSettleState
          rw [huser1]
        have hws2 : winSettleState (setGameWinner (updateParticipantMarkedNumbers s₂ pid marked)
              gid player.userId) gid player.userId game2
            = setGameWinner (updateParticipantMarkedNumbers s₂ pid marked) gid player.userId := by
          unfold winSettleState
          rw [huser.symm.trans huser1]
        rw [hws1, hws2]
        unfold broadcastWin
        have hroomeq : (setGameWinner (updateParticipantMarkedNumbers s₁ pid marked) gid
              player.userId).rooms
            = (setGameWinner (updateParticipantMarkedNumbers s₂ pid marked) gid
              player.userId).rooms := hr
        by_cases hroom : gid ∈ (setGameWinner (updateParticipantMarkedNumbers s₁ pid marked)
            gid player.userId).rooms
        · rw [if_pos hroom, if_pos (hroomeq ▸ hroom)]
          refine eraseCalled_ext hu2 hg2 hp1 ht hr ?_
          show s₁.events ++ [Event.gameWon gid player.userId game1.prizePool]
            = s₂.events ++ [Event.gameWon gid player.userId game2.prizePool]
          rw [he, hpool]
        · rw [if_neg hroom, if_neg (hroomeq ▸ hroom)]
          exact eraseCalled_ext hu2 hg2 hp1 ht hr he
      | some user1 =>
        have hws1 : winSettleState (setGameWinner (updateParticipantMarkedNumbers s₁ pid marked)
              gid player.userId) gid player.userId game1
            = createTransaction (updateUserBalance
                (setGameWinner (updateParticipantMarkedNumbers s₁ pid marked) gid player.userId)
                player.userId (user1.balance + game1.prizePool))
                ⟨player.userId, TxnType.gameWin, game1.prizePool, TxnStatus.completed,
                  some gid⟩ := by
          unfold winSettleState
          rw [huser1]
        have hws2 : winSettleState (setGameWinner (updateParticipantMarkedNumbers s₂ pid marked)
              gid player.userId) gid player.userId game2
            = createTransaction (updateUserBalance
                (setGameWinner (updateParticipantMarkedNumbers s₂ pid marked) gid player.userId)
                player.userId (user1.balance + game2.prizePool))
                ⟨player.userId, TxnType.gameWin, game2.prizePool, TxnStatus.completed,
                  some gid⟩ := by
          unfold winSettleState
          rw [huser.symm.trans huser1]
        rw [hws1, hws2]
        unfold broadcastWin
        have hu3 : (createTransaction (updateUserBalance
              (setGameWinner (updateParticipantMarkedNumbers s₁ pid marked) gid player.userId)
              player.userId (user1.balance + game1.prizePool))
              ⟨player.userId, TxnType.gameWin, game1.prizePool, TxnStatus.completed,
                some gid⟩).users
            = (createTransaction (updateUserBalance
              (setGameWinner (updateParticipantMarkedNumbers s₂ pid marked) gid player.userId)
              player.userId (user1.balance + game2.prizePool))
              ⟨player.userId, TxnType.gameWin, game2.prizePool, TxnStatus.completed,
                some gid⟩).users := by
          show (s₁.users.map fun u => if u.id == player.userId then
              { u with balance := user1.balance + game1.prizePool } else u)
            = (s₂.users.map fun u => if u.id == player.userId then
              { u with balance := user1.balance + game2.prizePool } else u)
          rw [hpool, hu]
        have ht3 : (createTransaction (updateUserBalance
              (setGameWinner (updateParticipantMarkedNumbers s₁ pid marked) gid player.userId)
              player.userId (user1.balance + game1.prizePool))
              ⟨player.userId, TxnType.gameWin, game1.prizePool, TxnStatus.completed,
                some gid⟩).transactions
            = (createTransaction (updateUserBalance
              (setGameWinner (updateParticipantMarkedNumbers s₂ pid marked) gid player.userId)
              player.userId (user1.balance + game2.prizePool))
              ⟨player.userId, TxnType.gameWin, game2.prizePool, TxnStatus.completed,
                some gid⟩).transactions := by
          show s₁.transactions ++ [⟨player.userId, TxnType.gameWin, game1.prizePool,
              TxnStatus.completed, some gid⟩]
            = s₂.transactions ++ [⟨player.userId, TxnType.gameWin, game2.prizePool,
              TxnStatus.completed, some gid⟩]
          rw [ht, hpool]
        have hroomeq : (createTransaction (updateUserBalance
              (setGameWinner (updateParticipantMarkedNumbers s₁ pid marked) gid player.userId)
              player.userId (user1.balance + game1.prizePool))
              ⟨player.userId, TxnType.gameWin, game1.prizePool, TxnStatus.completed,
                some gid⟩).rooms
            = (createTransaction (updateUserBalance
              (setGameWinner (updateParticipantMarkedNumbers s₂ pid marked) gid player.userId)
              player.userId (user1.balance + game2.prizePool))
              ⟨player.userId, TxnType.gameWin, game2.prizePool, TxnStatus.completed,
                some gid⟩).rooms := hr
        by_cases hroom : gid ∈ (createTransaction (updateUserBalance
            (setGameWinner (updateParticipantMarkedNumbers s₁ pid marked) gid player.userId)
            player.userId (user1.balance + game1.prizePool))
            ⟨player.userId, TxnType.gameWin, game1.prizePool, TxnStatus.completed,
              some gid⟩).rooms
        · rw [if_pos hroom, if_pos (hroomeq ▸ hroom)]
          refine eraseCalled_ext hu3 hg2 hp1 ht3 hr ?_
          show (s₁.events ++ [Event.gameWon gid player.userId game1.prizePool])
            = (s₂.events ++ [Event.gameWon gid player.userId game2.prizePool])
          rw [he, hpool]
        · rw [if_neg hroom, if_neg (hroomeq ▸ hroom)]
          exact eraseCalled_ext hu3 hg2 hp1 ht3 hr he

lemma setGameCalledNumbers_eraseCalled (s : ServerState) (gid : Nat) (ns : List String) :
    eraseCalled (setGameCalledNumbers s gid ns) = eraseCalled s := by
  refine eraseCalled_ext rfl ?_ rfl rfl rfl rfl
  show (s.games.map fun g => if g.id == gid then { g with calledNumbers := ns } else g).map
      eraseGameCalled = s.games.map eraseGameCalled
  rw [List.map_map]
  apply List.map_congr_left
  intro g _
  show eraseGameCalled (if g.id == gid then { g with calledNumbers := ns } else g)
    = eraseGameCalled g
  by_cases hc : g.id == gid
  · rw [if_pos hc]
    rfl
  · rw [if_neg hc]

/-- C9: the win decision of the mark_number handler does not depend on the
session's called-number sequence.  Two runs of the handler over states whose
game row holds different called-number sequences — same card, same submitted
marked set — end in states that agree everywhere outside the called-number
data, so the win/no-win outcome (winner field, prize credit, transactions,
broadcasts) is identical. -/
theorem c9_win_independent_of_called (s : ServerState) (gid pid : Nat)
    (marked : List Nat) (ns₁ ns₂ : List String) :
    eraseCalled (markNumber (setGameCalledNumbers s gid ns₁) gid pid marked)
      = eraseCalled (markNumber (setGameCalledNumbers s gid ns₂) gid pid marked) := by
  apply markNumber_called_noninterference
  rw [setGameCalledNumbers_eraseCalled, setGameCalledNumbers_eraseCalled]

/-- Witness for C7: the generator run on the identity random stream with
fuel 20 succeeds, and the returned card satisfies the column-range,
distinctness and free-cell properties. -/
theorem c7_generate_card_spec_witness :
    generateBingoCard (fun k => k) 20 = some sampleGenCard ∧
    (sampleGenCard.length = 5 ∧ (∀ row ∈ sampleGenCard, row.length = 5) ∧
    (∀ c, c < 5 → (cardColumn sampleGenCard c).length = 5 ∧
      (cardColumn sampleGenCard c).Nodup ∧
      ∀ n ∈ cardColumn sampleGenCard c,
        (c = 2 ∧ n = 0) ∨ (15 * c + 1 ≤ n ∧ n ≤ 15 * c + 15)) ∧
    (cardRow sampleGenCard 2).getD 2 0 = 0) :=
  ⟨by decide, c7_generate_card_spec (fun k => k) 20 sampleGenCard (by decide)⟩

/-- Witness for C10: the card generated from the identity random stream
with fuel 20 does not win on the empty marked set. -/
theorem c10_empty_marks_no_win_witness :
    generateBingoCard (fun k => k) 20 = some sampleGenCard ∧
    checkWinCondition sampleGenCard [] = false :=
  ⟨by decide, c10_empty_marks_no_win (fun k => k) 20 sampleGenCard (by decide)⟩

end TelegramBingo
